import Mathlib

/-!
Shallow embedding of the process session manager of `sublime-boo`
(`BooHints/server.py` and the registry in `BooHints/__init__.py`).

Python strings are modelled as `List Char` (`PyStr`); the `Server` object
is a record `ServerState`; each method becomes a state-transition function.
Side effects that leave the program (logging, the actual OS process, timers)
are not part of the state: spawning and stopping are recorded through the
`proc` handle and two ghost counters (`spawnCount`, `stopCount`), and the
line read from the child or the fate of a blocking `get` is supplied by the
environment as an explicit parameter (`QueryOutcome`). `json.loads` is an
external library call and is passed in as a function `PyStr → Option Json`
(`none` models the decoder raising).
-/

namespace BooHints

/-- A Python string, modelled as its sequence of characters. -/
abbrev PyStr := List Char

/-- Convenience: coerce a Lean string literal into a `PyStr`. -/
def pys (s : String) : PyStr := s.toList

/-- Python `str.startswith`. -/
def startswith (pre s : PyStr) : Bool :=
  match pre, s with
  | [], _ => true
  | _ :: _, [] => false
  | p :: ps, c :: cs => p == c && startswith ps cs

/-- Python `str.rstrip()`: drop trailing whitespace. -/
def pyRstrip (s : PyStr) : PyStr :=
  (s.reverse.dropWhile Char.isWhitespace).reverse

/-- Python `str.strip()`: drop leading and trailing whitespace. -/
def pyStrip (s : PyStr) : PyStr :=
  pyRstrip (s.dropWhile Char.isWhitespace)

/-- Recursion workhorse for `replaceAll`, structurally recursive on a fuel
counter so it evaluates inside the kernel. Each step consumes at least one
character and exactly one unit of fuel, so fuel starting at the string's
length never runs out; the `0` fallback is unreachable. -/
def replaceAllAux (pat rep : PyStr) : Nat → PyStr → PyStr
  | _, [] => []
  | 0, s => s
  | n + 1, c :: rest =>
    if pat ≠ [] ∧ List.isPrefixOf pat (c :: rest) then
      rep ++ replaceAllAux pat rep n ((c :: rest).drop pat.length)
    else
      c :: replaceAllAux pat rep n rest

/-- Python `str.replace pat rep`: replace every non-overlapping occurrence of
`pat`, scanning left to right (the behaviour of `ln.replace('-o', '-r')` on
line 71 of `server.py`). -/
def replaceAll (pat rep s : PyStr) : PyStr :=
  replaceAllAux pat rep s.length s

/-- A parsed JSON value, as returned by `json.loads`. The broker never
inspects the parsed value (that is the caller's concern), so the exact shape
is irrelevant; a few constructors stand in for the possible values. -/
inductive Json where
  | null
  | num (n : Int)
  | str (s : PyStr)
deriving DecidableEq

/-- The child process handle (`self.proc`): whether `poll()` still reports it
running, and the argument vector and working directory it was spawned with
(recorded so theorems can talk about the invocation). -/
structure ProcInfo where
  running : Bool
  args : List PyStr
  cwd : Option PyStr
deriving DecidableEq

/-- The configured response file: its directory (`os.path.dirname(self.rsp)`)
and the lines `fp.readlines()` yields when `start` opens it. -/
structure RspFile where
  dir : PyStr
  lines : List PyStr
deriving DecidableEq

/-- One entry of the async query queue: the command and keyword arguments of
a pending `query_async` request (the Python tuple also carries the callback;
callbacks are opaque to the state model). -/
structure AsyncItem where
  cmd : PyStr
  params : List (PyStr × PyStr)
deriving DecidableEq

/-- The mutable state of a `Server` object. `spawnCount` and `stopCount` are
ghost counters: the number of `subprocess.Popen` calls made so far and the
number of times `stop` cleared a process handle. `lockHeld` models
`self.lock`: `query` acquires it on entry to its `with` block and the model
records whether it is held when the function returns. -/
structure ServerState where
  args : List PyStr
  cwd : Option PyStr
  rsp : Option RspFile
  timeout : Nat
  proc : Option ProcInfo
  results : List PyStr
  asyncQueries : List AsyncItem
  lockHeld : Bool
  needsRestart : Bool
  invalid : Bool
  lastUsage : Nat
  spawnCount : Nat
  stopCount : Nat
deriving DecidableEq

/-- How `Server.__init__` received its `args` parameter: a mutable list, a
tuple, or `None` (the default). -/
inductive ArgsParam where
  | list (a : List PyStr)
  | tuple (a : List PyStr)
  | noneArg
deriving DecidableEq

/-- Lines 30-34 of `server.py`: `args.insert(0, bin)` succeeds only when
`args` is a list (mutating it in place), in which case `self.args` is the
mutated list; a tuple or `None` has no `insert`, the `AttributeError` is
swallowed by the bare `except`, and `self.args` collapses to `(bin,)`. -/
def serverInitArgs (bin : PyStr) : ArgsParam → List PyStr
  | .list a => bin :: a
  | .tuple _ => [bin]
  | .noneArg => [bin]

/-- `Server.__init__`: record the configuration and start with no process,
empty queues, a free lock, and both failure flags clear. (The three reader
threads the constructor starts are modelled as the step functions below.) -/
def initServer (bin : PyStr) (argsp : ArgsParam) (rsp : Option RspFile)
    (cwd : Option PyStr) (timeout : Nat) : ServerState :=
  { args := serverInitArgs bin argsp
    cwd := cwd
    rsp := rsp
    timeout := timeout
    proc := none
    results := []
    asyncQueries := []
    lockHeld := false
    needsRestart := false
    invalid := false
    lastUsage := 0
    spawnCount := 0
    stopCount := 0 }

/-- The boolean computed on line 119: the process handle exists and
`poll()` reports it still running. -/
def procAlive (s : ServerState) : Bool :=
  match s.proc with
  | some p => p.running
  | none => false

/-- `reset_queue` applied to both queues, as `is_alive` does on lines
121-122 when the process is found dead. -/
def resetQueues (s : ServerState) : ServerState :=
  { s with results := [], asyncQueries := [] }

/-- `Server.is_alive` (lines 118-123): returns whether the process is alive,
and — as a side effect — drains both the result queue and the async query
queue whenever it is not. -/
def isAlive (s : ServerState) : Bool × ServerState :=
  if procAlive s then (true, s) else (false, resetQueues s)

/-- Lines 69-72 of `start`: from the stripped lines of the response file,
keep the `-r` lines, then the `-o` lines with every occurrence of `-o`
replaced by `-r`, then the `-ducky` lines, in that order. -/
def rspExtraArgs (lines0 : List PyStr) : List PyStr :=
  let lines := lines0.map pyStrip
  (lines.filter (fun ln => startswith (pys "-r") ln))
    ++ (lines.filter (fun ln => startswith (pys "-o") ln)).map
        (fun ln => replaceAll (pys "-o") (pys "-r") ln)
    ++ lines.filter (fun ln => startswith (pys "-ducky") ln)

/-- Lines 62-90 of `start`: compute the argument vector (base arguments plus
response-file extras) and working directory (the response file's directory
when one is configured, otherwise `self.cwd`), and `Popen` the child. -/
def spawn (s : ServerState) : ServerState :=
  let extra :=
    match s.rsp with
    | some r => (rspExtraArgs r.lines, some r.dir)
    | none => (([] : List PyStr), s.cwd)
  { s with
    proc := some { running := true, args := s.args ++ extra.1, cwd := extra.2 }
    spawnCount := s.spawnCount + 1 }

/-- `Server.stop` (lines 92-109): a no-op without a process handle;
otherwise run the two `is_alive` checks (whose queue-draining side effects
apply when the process is already dead), attempt quit/terminate/kill (pure
OS effects, outside the state), and clear the handle. -/
def stop (s : ServerState) : ServerState :=
  match s.proc with
  | none => s
  | some _ =>
    let s1 := (isAlive s).2
    let s2 := (isAlive s1).2
    { s2 with proc := none, stopCount := s2.stopCount + 1 }

/-- The body of `Server.start` after the usage time has been recorded
(lines 54-90): if a restart is pending, clear the flag, stop the old
process and spawn; if already alive, return; otherwise spawn.
(`check_timeout` arms a timer, an effect outside the state.) -/
def startBody (s : ServerState) : ServerState :=
  if s.needsRestart then
    spawn (stop { s with needsRestart := false })
  else if (isAlive s).1 then (isAlive s).2
  else spawn (isAlive s).2

/-- `Server.start` (lines 51-90): record the usage time (line 52), then run
the restart/alive/spawn logic. -/
def start (now : Nat) (s0 : ServerState) : ServerState :=
  startBody { s0 with lastUsage := now }

/-- `Server.query_async` (lines 228-232): append the request to the async
queue. -/
def queryAsync (item : AsyncItem) (s : ServerState) : ServerState :=
  { s with asyncQueries := s.asyncQueries ++ [item] }

/-- The no-op wake-up query that `server_command` enqueues on line 185:
`query_async(lambda x: x, 'parse', fname='reload', code='')`. -/
def noopQuery : AsyncItem :=
  { cmd := pys "parse", params := [(pys "fname", pys "reload"), (pys "code", pys "")] }

/-- `Server.server_command` (lines 179-187): a `ReferenceModified:` line
sets the restart-pending flag and enqueues the no-op async query; anything
else is logged as unsupported and changes nothing. -/
def serverCommand (line : PyStr) (s : ServerState) : ServerState :=
  if startswith (pys "ReferenceModified:") line then
    queryAsync noopQuery { s with needsRestart := true }
  else s

/-- How `thread_stdout` classifies one (rstripped) line. -/
inductive StdoutAction where
  | serverCmd (rest : PyStr)
  | diagnostic (msg : PyStr)
  | response (line : PyStr)
deriving DecidableEq

/-- Lines 137-144 of `thread_stdout`: a `#` line is out-of-band — with a
further `!` the remainder is a server command, otherwise a logged
diagnostic; any other line is a query response. -/
def classifyStdoutLine (line : PyStr) : StdoutAction :=
  if startswith [Char.ofNat 35] line then
    let l := line.drop 1
    if startswith [Char.ofNat 33] l then .serverCmd (l.drop 1)
    else .diagnostic l
  else .response line

/-- One iteration of the `thread_stdout` loop body for a line the reader
returned (lines 132-144): skip empty reads, rstrip, classify, and either run
the server command, log the diagnostic (no state change), or push the line
onto the result queue. -/
def stdoutStep (rawLine : PyStr) (s : ServerState) : ServerState :=
  if rawLine.length = 0 then s
  else
    let line := pyRstrip rawLine
    match classifyStdoutLine line with
    | .serverCmd rest => serverCommand rest s
    | .diagnostic _ => s
    | .response l => { s with results := s.results ++ [l] }

/-- What the environment does while `query` blocks on `results.get`: either
a response line arrives within the timeout, or the wait times out — in which
case `aliveAtCheck` tells whether `poll()` still reports the process running
when the handler checks `is_alive` (the child can die between the spawn and
the check). -/
inductive QueryOutcome where
  | got (line : PyStr)
  | timeout (aliveAtCheck : Bool)

/-- Set the `poll()` status of the current process handle, modelling the
child dying (or surviving) between two observations. -/
def setAlive (b : Bool) (s : ServerState) : ServerState :=
  match s.proc with
  | some p => { s with proc := some { p with running := b } }
  | none => s

/-- What `Server.query` returns: `None`, a parsed JSON value, or — when
`json.loads` raised after `resp` was already bound to the line — the raw
undecoded line. -/
inductive QueryResp where
  | noResp
  | parsed (v : Json)
  | rawLine (l : PyStr)
deriving DecidableEq

/-- `Server.query` (lines 189-226): short-circuit when flagged invalid;
otherwise acquire the lock, `start`, reset the result queue, write the
request, and wait. On a received line, `json.loads` either yields a parsed
value or raises — the `except Exception` handler logs and falls through to
`return resp`, which still holds the raw line. On timeout, if `is_alive`
now fails, the invalid flag is set. The `with` block releases the lock on
every path. -/
def query (dec : PyStr → Option Json) (now : Nat) (outcome : QueryOutcome)
    (s0 : ServerState) : QueryResp × ServerState :=
  if s0.invalid then (QueryResp.noResp, s0)
  else
    let s1 : ServerState := { s0 with lockHeld := true }
    let s2 := start now s1
    let s3 : ServerState := { s2 with results := [] }
    match outcome with
    | .got line =>
      match dec line with
      | some v => (QueryResp.parsed v, { s3 with lockHeld := false })
      | none => (QueryResp.rawLine line, { s3 with lockHeld := false })
    | .timeout aliveAtCheck =>
      let s4 := setAlive aliveAtCheck s3
      let s5 := (isAlive s4).2
      let s6 : ServerState :=
        if (isAlive s4).1 then s5 else { s5 with invalid := true }
      (QueryResp.noResp, { s6 with lockHeld := false })

/-- A concrete stand-in for `json.loads` used in closed witnesses: decodes
only the literal line `null`; every other line raises (returns `none`). -/
def dec0 : PyStr → Option Json :=
  fun l => if l = pys "null" then some Json.null else none

/-- The response-file extraction as the claim's words read: lines starting
with `-o` have only the leading output flag translated to a reference flag
(the rest of the line untouched). Written from the claim, to be compared
with `rspExtraArgs`, which is written from the source. -/
def rspExtraArgsClaim (lines0 : List PyStr) : List PyStr :=
  let lines := lines0.map pyStrip
  (lines.filter (fun ln => startswith (pys "-r") ln))
    ++ (lines.filter (fun ln => startswith (pys "-o") ln)).map
        (fun ln => pys "-r" ++ ln.drop 2)
    ++ lines.filter (fun ln => startswith (pys "-ducky") ln)

/-- The amended description of the extraction: the `-o` lines are included
with every occurrence of `-o` in the line replaced by `-r` (Python's
`str.replace` semantics), not only the leading flag. -/
def rspExtraArgsAmended (lines0 : List PyStr) : List PyStr :=
  (lines0.map pyStrip).filter (fun ln => startswith (pys "-r") ln)
    ++ (lines0.map pyStrip).filterMap
        (fun ln =>
          if startswith (pys "-o") ln
          then some (replaceAll (pys "-o") (pys "-r") ln) else none)
    ++ (lines0.map pyStrip).filter (fun ln => startswith (pys "-ducky") ln)

/-- The identity key the registry uses on line 32 of `__init__.py`:
`(cmd, tuple(args), cwd, rsp)`. -/
structure SessionKey where
  cmd : PyStr
  args : List PyStr
  cwd : Option PyStr
  rsp : Option PyStr
deriving DecidableEq

/-- The module-level `_SERVERS` dict, modelled as an association list in
insertion order, together with a fresh-identity counter standing for Python
object identity of the `Server` instances it creates. -/
structure Registry where
  sessions : List (SessionKey × Nat)
  nextId : Nat
deriving DecidableEq

/-- Dict lookup: `_SERVERS[key]` / `key in _SERVERS`. -/
def findSession (k : SessionKey) : List (SessionKey × Nat) → Option Nat
  | [] => none
  | (k2, v) :: rest => if k2 = k then some v else findSession k rest

/-- `get_server` (lines 15-36 of `__init__.py`), from the point where the
key tuple has been computed: return the tracked Session for the key, or
create one (a fresh identity) on first access and track it. -/
def get_server (k : SessionKey) (r : Registry) : Nat × Registry :=
  match findSession k r.sessions with
  | some id => (id, r)
  | none =>
    (r.nextId,
     { sessions := r.sessions ++ [(k, r.nextId)], nextId := r.nextId + 1 })

/-- The invariant every registry reachable from the empty one satisfies:
tracked identities are below the counter, keys are distinct (it is a dict),
and identities are distinct (each was fresh when assigned). -/
def RegistryWF (r : Registry) : Prop :=
  (∀ p ∈ r.sessions, p.2 < r.nextId)
    ∧ (r.sessions.map Prod.fst).Nodup
    ∧ (r.sessions.map Prod.snd).Nodup

lemma findSession_mem {k : SessionKey} {i : Nat} :
    ∀ {ss : List (SessionKey × Nat)}, findSession k ss = some i → (k, i) ∈ ss := by
  intro ss
  induction ss with
  | nil => simp [findSession]
  | cons p rest ih =>
    obtain ⟨k2, v⟩ := p
    simp only [findSession]
    split
    · rename_i hk
      intro h
      cases h
      subst hk
      simp
    · intro h
      exact List.mem_cons_of_mem _ (ih h)

lemma findSession_append_self {k : SessionKey} {v : Nat} :
    ∀ {ss : List (SessionKey × Nat)}, findSession k ss = none →
      findSession k (ss ++ [(k, v)]) = some v := by
  intro ss
  induction ss with
  | nil => simp [findSession]
  | cons p rest ih =>
    obtain ⟨k2, w⟩ := p
    simp only [findSession, List.cons_append]
    split
    · simp
    · exact ih

lemma findSession_append_other {k k' : SessionKey} {v : Nat} (hne : k ≠ k') :
    ∀ {ss : List (SessionKey × Nat)},
      findSession k' (ss ++ [(k, v)]) = findSession k' ss := by
  intro ss
  induction ss with
  | nil => simp [findSession, hne]
  | cons p rest ih =>
    obtain ⟨k2, w⟩ := p
    simp only [findSession, List.cons_append]
    split
    · rfl
    · exact ih

lemma startswith_append (p r : PyStr) : startswith p (p ++ r) = true := by
  induction p with
  | nil => rfl
  | cons c cs ih => simp [startswith, ih]

lemma map_filter_eq_filterMap {α β : Type} (p : α → Bool) (f : α → β)
    (l : List α) :
    (l.filter p).map f
      = l.filterMap (fun x => if p x then some (f x) else none) := by
  induction l with
  | nil => rfl
  | cons x xs ih => by_cases h : p x <;> simp [h, ih]

@[simp] lemma spawn_invalid (s : ServerState) : (spawn s).invalid = s.invalid := rfl

@[simp] lemma spawn_needsRestart (s : ServerState) :
    (spawn s).needsRestart = s.needsRestart := rfl

@[simp] lemma spawn_lockHeld (s : ServerState) : (spawn s).lockHeld = s.lockHeld := rfl

@[simp] lemma spawn_spawnCount (s : ServerState) :
    (spawn s).spawnCount = s.spawnCount + 1 := rfl

@[simp] lemma spawn_stopCount (s : ServerState) :
    (spawn s).stopCount = s.stopCount := rfl

@[simp] lemma procAlive_spawn (s : ServerState) : procAlive (spawn s) = true := rfl

@[simp] lemma isAlive_fst (s : ServerState) : (isAlive s).1 = procAlive s := by
  unfold isAlive
  split <;> simp_all

@[simp] lemma isAlive_snd_invalid (s : ServerState) :
    ((isAlive s).2).invalid = s.invalid := by
  unfold isAlive
  split <;> rfl

@[simp] lemma isAlive_snd_needsRestart (s : ServerState) :
    ((isAlive s).2).needsRestart = s.needsRestart := by
  unfold isAlive
  split <;> rfl

@[simp] lemma isAlive_snd_lockHeld (s : ServerState) :
    ((isAlive s).2).lockHeld = s.lockHeld := by
  unfold isAlive
  split <;> rfl

@[simp] lemma isAlive_snd_proc (s : ServerState) :
    ((isAlive s).2).proc = s.proc := by
  unfold isAlive
  split <;> rfl

@[simp] lemma isAlive_snd_spawnCount (s : ServerState) :
    ((isAlive s).2).spawnCount = s.spawnCount := by
  unfold isAlive
  split <;> rfl

@[simp] lemma isAlive_snd_stopCount (s : ServerState) :
    ((isAlive s).2).stopCount = s.stopCount := by
  unfold isAlive
  split <;> rfl

@[simp] lemma procAlive_isAlive_snd (s : ServerState) :
    procAlive ((isAlive s).2) = procAlive s := by
  unfold isAlive
  split <;> rfl

lemma isAlive_snd_of_alive {s : ServerState} (h : procAlive s = true) :
    (isAlive s).2 = s := by
  simp [isAlive, h]

@[simp] lemma stop_invalid (s : ServerState) : (stop s).invalid = s.invalid := by
  cases hp : s.proc <;> simp [stop, hp]

@[simp] lemma stop_needsRestart (s : ServerState) :
    (stop s).needsRestart = s.needsRestart := by
  cases hp : s.proc <;> simp [stop, hp]

@[simp] lemma stop_lockHeld (s : ServerState) : (stop s).lockHeld = s.lockHeld := by
  cases hp : s.proc <;> simp [stop, hp]

@[simp] lemma stop_spawnCount (s : ServerState) :
    (stop s).spawnCount = s.spawnCount := by
  cases hp : s.proc <;> simp [stop, hp]

lemma stop_proc_none {s : ServerState} (hp : s.proc = none) : stop s = s := by
  simp [stop, hp]

lemma stop_proc (s : ServerState) : (stop s).proc = none := by
  cases hp : s.proc <;> simp [stop, hp]

lemma stop_stopCount_some {s : ServerState} {p : ProcInfo} (hp : s.proc = some p) :
    (stop s).stopCount = s.stopCount + 1 := by
  simp [stop, hp]

@[simp] lemma start_invalid (now : Nat) (s : ServerState) :
    (start now s).invalid = s.invalid := by
  unfold start startBody
  by_cases hr : s.needsRestart <;> simp [hr] <;> split <;> simp

@[simp] lemma start_lockHeld (now : Nat) (s : ServerState) :
    (start now s).lockHeld = s.lockHeld := by
  unfold start startBody
  by_cases hr : s.needsRestart <;> simp [hr] <;> split <;> simp

@[simp] lemma start_needsRestart (now : Nat) (s : ServerState) :
    (start now s).needsRestart = false := by
  unfold start startBody
  by_cases hr : s.needsRestart <;> simp [hr] <;> split <;> simp_all

@[simp] lemma procAlive_start (now : Nat) (s : ServerState) :
    procAlive (start now s) = true := by
  unfold start startBody
  by_cases hr : s.needsRestart <;> simp [hr] <;> split <;> simp_all

@[simp] lemma procAlive_setAlive_false (s : ServerState) :
    procAlive (setAlive false s) = false := by
  cases hp : s.proc <;> simp [setAlive, hp, procAlive]

@[simp] lemma setAlive_invalid (b : Bool) (s : ServerState) :
    (setAlive b s).invalid = s.invalid := by
  cases hp : s.proc <;> simp [setAlive, hp]

@[simp] lemma setAlive_lockHeld (b : Bool) (s : ServerState) :
    (setAlive b s).lockHeld = s.lockHeld := by
  cases hp : s.proc <;> simp [setAlive, hp]

@[simp] lemma serverCommand_invalid (line : PyStr) (s : ServerState) :
    (serverCommand line s).invalid = s.invalid := by
  unfold serverCommand
  split <;> simp [queryAsync]

@[simp] lemma queryAsync_invalid (item : AsyncItem) (s : ServerState) :
    (queryAsync item s).invalid = s.invalid := rfl

@[simp] lemma stdoutStep_invalid (rawLine : PyStr) (s : ServerState) :
    (stdoutStep rawLine s).invalid = s.invalid := by
  unfold stdoutStep
  split
  · rfl
  · rcases h : classifyStdoutLine (pyRstrip rawLine) <;> simp [h]

/-- C1 counterexample: a fresh session receives the response line `oops`
within the timeout; `json.loads` raises, and `Server.query` returns the raw
undecoded line rather than the `None` the claim states. -/
theorem spec_c1_cex :
    (query dec0 0 (QueryOutcome.got (pys "oops"))
        (initServer (pys "booc") ArgsParam.noneArg none none 300)).1
      = QueryResp.rawLine (pys "oops")
    ∧ (query dec0 0 (QueryOutcome.got (pys "oops"))
        (initServer (pys "booc") ArgsParam.noneArg none none 300)).1
      ≠ QueryResp.noResp := by
  decide

/-- C1 (amended): for every query whose response line is received within the
timeout but fails to decode as JSON, `Server.query` logs the failure and
returns the raw undecoded line (`resp` was already bound to the line when
`json.loads` raised, so the `return resp` on line 226 yields the string, not
`None`); the Session remains usable (not Invalid) for subsequent queries,
and the lock is released. -/
theorem spec_c1 (dec : PyStr → Option Json) (now : Nat) (line : PyStr)
    (s : ServerState) (hinv : s.invalid = false) (hdec : dec line = none) :
    (query dec now (QueryOutcome.got line) s).1 = QueryResp.rawLine line
    ∧ ((query dec now (QueryOutcome.got line) s).2).invalid = false
    ∧ ((query dec now (QueryOutcome.got line) s).2).lockHeld = false := by
  unfold query
  simp [hinv, hdec]

/-- Witness for C1 at a concrete fresh session and the undecodable line
`oops`. -/
theorem spec_c1_witness :
    ((query dec0 0 (QueryOutcome.got (pys "oops"))
        (initServer (pys "booc") ArgsParam.noneArg none none 300)).2).invalid
      = false := by
  exact (spec_c1 dec0 0 (pys "oops")
    (initServer (pys "booc") ArgsParam.noneArg none none 300)
    rfl (by decide)).2.1

/-- C2: a query that times out while the child is no longer alive flags the
Session `Invalid`; every query against an invalid Session returns
immediately with no response and the state untouched (so no new wait and no
respawn — the state, including `spawnCount`, is unchanged); and no session
operation ever clears the invalid flag, so the state is kept until the
Session is discarded. -/
theorem spec_c2 (dec : PyStr → Option Json) (now : Nat) (o : QueryOutcome)
    (line rawLine : PyStr) (item : AsyncItem) (s : ServerState) :
    (s.invalid = false →
      (query dec now (QueryOutcome.timeout false) s).1 = QueryResp.noResp
      ∧ ((query dec now (QueryOutcome.timeout false) s).2).invalid = true)
    ∧ (s.invalid = true → query dec now o s = (QueryResp.noResp, s))
    ∧ (s.invalid = true →
        (start now s).invalid = true ∧ (stop s).invalid = true
        ∧ ((isAlive s).2).invalid = true
        ∧ (serverCommand line s).invalid = true
        ∧ (stdoutStep rawLine s).invalid = true
        ∧ (queryAsync item s).invalid = true
        ∧ ((query dec now o s).2).invalid = true) := by
  refine ⟨?_, ?_, ?_⟩
  · intro hinv
    unfold query
    simp [hinv]
  · intro hinv
    unfold query
    simp [hinv]
  · intro hinv
    have hq : query dec now o s = (QueryResp.noResp, s) := by
      unfold query
      simp [hinv]
    simp [hinv, hq]

/-- Witness for C2: a fresh session times out against a dead child and is
flagged invalid; a second query against the invalidated session returns
immediately with no response and an unchanged state. -/
theorem spec_c2_witness :
    ((query dec0 0 (QueryOutcome.timeout false)
        (initServer (pys "booc") ArgsParam.noneArg none none 300)).2).invalid
      = true
    ∧ query dec0 1 (QueryOutcome.got (pys "late"))
        { initServer (pys "booc") ArgsParam.noneArg none none 300 with
            invalid := true }
      = (QueryResp.noResp,
         { initServer (pys "booc") ArgsParam.noneArg none none 300 with
             invalid := true }) := by
  constructor
  · exact ((spec_c2 dec0 0 (QueryOutcome.timeout false) (pys "") (pys "")
      noopQuery (initServer (pys "booc") ArgsParam.noneArg none none 300)).1
      rfl).2
  · exact (spec_c2 dec0 1 (QueryOutcome.got (pys "late")) (pys "") (pys "")
      noopQuery { initServer (pys "booc") ArgsParam.noneArg none none 300 with
        invalid := true }).2.1 rfl

/-- C3: `Server.query` releases the session-wide mutual-exclusion lock on
every exit path — success, timeout (child alive or dead), decode error, and
the invalid short-circuit (which never acquires it) — so no call to `query`
leaves the lock held. -/
theorem spec_c3 (dec : PyStr → Option Json) (now : Nat) (o : QueryOutcome)
    (s : ServerState) (h : s.lockHeld = false) :
    ((query dec now o s).2).lockHeld = false := by
  unfold query
  by_cases hi : s.invalid
  · simp [hi, h]
  · simp only [hi, Bool.false_eq_true, if_false]
    cases o with
    | got line => cases hd : dec line <;> simp [hd]
    | timeout b => simp

/-- Witness for C3 on a fresh session and a timed-out query. -/
theorem spec_c3_witness :
    ((query dec0 0 (QueryOutcome.timeout false)
        (initServer (pys "booc") ArgsParam.noneArg none none 300)).2).lockHeld
      = false := by
  exact spec_c3 dec0 0 (QueryOutcome.timeout false)
    (initServer (pys "booc") ArgsParam.noneArg none none 300) rfl

@[simp] lemma pys_hash_eq : pys "#" = [Char.ofNat 35] := by decide

@[simp] lemma pys_bang_eq : pys "#!" = [Char.ofNat 35, Char.ofNat 33] := by decide

lemma startswith_eq_true_iff (pre : PyStr) :
    ∀ s : PyStr, startswith pre s = true ↔ ∃ t, s = pre ++ t := by
  induction pre with
  | nil =>
    intro s
    simp [startswith]
  | cons p ps ih =>
    intro s
    cases s with
    | nil => simp [startswith]
    | cons c cs =>
      simp only [startswith, Bool.and_eq_true, beq_iff_eq, ih, List.cons_append,
        List.cons.injEq]
      constructor
      · rintro ⟨hpc, t, ht⟩
        exact ⟨t, hpc.symm, ht⟩
      · rintro ⟨t, hc, ht⟩
        exact ⟨hc.symm, t, ht⟩

lemma startBody_alive_eq {s : ServerState} (hr : s.needsRestart = false)
    (ha : procAlive s = true) : startBody s = s := by
  simp [startBody, hr, ha, isAlive_snd_of_alive ha]

lemma startBody_dead_eq {s : ServerState} (hr : s.needsRestart = false)
    (ha : procAlive s = false) : startBody s = spawn (resetQueues s) := by
  simp [startBody, hr, ha, isAlive]

lemma start_alive_eq {now : Nat} {s : ServerState} (hr : s.needsRestart = false)
    (ha : procAlive s = true) : start now s = { s with lastUsage := now } :=
  startBody_alive_eq (s := { s with lastUsage := now }) hr ha

lemma start_spawnCount_dead {now : Nat} {s : ServerState}
    (hr : s.needsRestart = false) (ha : procAlive s = false) :
    (start now s).spawnCount = s.spawnCount + 1 := by
  have h := startBody_dead_eq (s := { s with lastUsage := now }) hr ha
  unfold start
  rw [h]
  simp [resetQueues]

/-- C4: for every (rstripped, non-empty) line read from the child's stdout:
a line beginning with `#!` has its remainder handled as a server command; a
line beginning with `#` but not `#!` is logged as a diagnostic and discarded
(no state change); any other line is pushed onto the result queue. -/
theorem spec_c4 (line : PyStr) (s : ServerState)
    (hline : pyRstrip line = line) (hne : line ≠ []) :
    (startswith (pys "#!") line = true →
        stdoutStep line s = serverCommand (line.drop 2) s)
    ∧ (startswith (pys "#") line = true → startswith (pys "#!") line = false →
        stdoutStep line s = s)
    ∧ (startswith (pys "#") line = false →
        stdoutStep line s = { s with results := s.results ++ [line] }) := by
  have hlen : ¬ line.length = 0 := by
    simpa [List.length_eq_zero] using hne
  refine ⟨?_, ?_, ?_⟩
  · intro h1
    rw [pys_bang_eq] at h1
    obtain ⟨t, rfl⟩ := (startswith_eq_true_iff _ _).mp h1
    simp only [List.cons_append, List.nil_append] at hline
    simp [stdoutStep, hline, classifyStdoutLine, startswith]
  · intro h1 h2
    rw [pys_hash_eq] at h1
    obtain ⟨t, rfl⟩ := (startswith_eq_true_iff _ _).mp h1
    rw [pys_bang_eq] at h2
    simp only [startswith, List.cons_append, List.append_eq, List.nil_append,
      beq_self_eq_true, Bool.true_and] at h2
    simp only [List.cons_append, List.nil_append] at hline
    simp [stdoutStep, hline, classifyStdoutLine, startswith, h2]
  · intro h1
    rw [pys_hash_eq] at h1
    simp [stdoutStep, hlen, hline, classifyStdoutLine, h1]

/-- Witness for C4 on the concrete diagnostic-free response line `abc`. -/
theorem spec_c4_witness :
    stdoutStep (pys "abc")
        (initServer (pys "booc") ArgsParam.noneArg none none 300)
      = { initServer (pys "booc") ArgsParam.noneArg none none 300 with
            results := [pys "abc"] } := by
  exact (spec_c4 (pys "abc")
    (initServer (pys "booc") ArgsParam.noneArg none none 300)
    (by decide) (by decide)).2.2 (by decide)

/-- C5: a `ReferenceModified:` server command (however the reference is
named) sets the restart-pending flag and appends the no-op async query to
the queue, touching neither the process handle nor the spawn counter; and
the next `start()` on a session whose flag is set and whose process is
alive clears the flag, stops the old process (one stop) and spawns a new
one exactly once. -/
theorem spec_c5 (rest : PyStr) (s t : ServerState) (now : Nat) (p : ProcInfo)
    (ht : t.needsRestart = true) (hp : t.proc = some p) :
    ((serverCommand (pys "ReferenceModified:" ++ rest) s).needsRestart = true
      ∧ (serverCommand (pys "ReferenceModified:" ++ rest) s).asyncQueries
          = s.asyncQueries ++ [noopQuery]
      ∧ (serverCommand (pys "ReferenceModified:" ++ rest) s).proc = s.proc
      ∧ (serverCommand (pys "ReferenceModified:" ++ rest) s).spawnCount
          = s.spawnCount)
    ∧ ((start now t).needsRestart = false
      ∧ (start now t).spawnCount = t.spawnCount + 1
      ∧ (start now t).stopCount = t.stopCount + 1
      ∧ procAlive (start now t) = true) := by
  constructor
  · simp [serverCommand, startswith_append, queryAsync]
  · have hp' :
        ({ { t with lastUsage := now } with needsRestart := false }
          : ServerState).proc = some p := hp
    unfold start startBody
    simp [ht, stop_stopCount_some hp']

/-- Witness for C5: the concrete command line remainder `x.dll`, and a
session with the flag set and a live process. -/
theorem spec_c5_witness :
    (serverCommand (pys "ReferenceModified:" ++ pys "x.dll")
        (initServer (pys "booc") ArgsParam.noneArg none none 300)).needsRestart
      = true
    ∧ (start 7 { initServer (pys "booc") ArgsParam.noneArg none none 300 with
          needsRestart := true,
          proc := some { running := true, args := [], cwd := none } }).spawnCount
      = ({ initServer (pys "booc") ArgsParam.noneArg none none 300 with
          needsRestart := true,
          proc := some { running := true, args := [], cwd := none } }
          : ServerState).spawnCount + 1 := by
  constructor
  · exact (spec_c5 (pys "x.dll")
      (initServer (pys "booc") ArgsParam.noneArg none none 300)
      { initServer (pys "booc") ArgsParam.noneArg none none 300 with
          needsRestart := true,
          proc := some { running := true, args := [], cwd := none } }
      7 { running := true, args := [], cwd := none } rfl rfl).1.1
  · exact (spec_c5 (pys "x.dll")
      (initServer (pys "booc") ArgsParam.noneArg none none 300)
      { initServer (pys "booc") ArgsParam.noneArg none none 300 with
          needsRestart := true,
          proc := some { running := true, args := [], cwd := none } }
      7 { running := true, args := [], cwd := none } rfl rfl).2.2.1

/-- C6: with no restart pending, `start()` on a session whose process is
already alive neither spawns nor touches the process handle, and two
`start()` calls in a row spawn exactly one process (one spawn when starting
dead, none when already alive) — so the second call never spawns. -/
theorem spec_c6 (now1 now2 : Nat) (s : ServerState)
    (hr : s.needsRestart = false) :
    (procAlive s = true →
      (start now1 s).spawnCount = s.spawnCount ∧ (start now1 s).proc = s.proc)
    ∧ (procAlive s = false →
      (start now2 (start now1 s)).spawnCount = s.spawnCount + 1)
    ∧ (start now2 (start now1 s)).spawnCount = (start now1 s).spawnCount
    ∧ (start now2 (start now1 s)).proc = (start now1 s).proc := by
  have h2 : start now2 (start now1 s) = { start now1 s with lastUsage := now2 } :=
    start_alive_eq (start_needsRestart now1 s) (procAlive_start now1 s)
  refine ⟨?_, ?_, ?_, ?_⟩
  · intro ha
    rw [start_alive_eq hr ha]
    exact ⟨rfl, rfl⟩
  · intro ha
    rw [h2]
    simpa using start_spawnCount_dead hr ha
  · rw [h2]
  · rw [h2]

/-- Witness for C6 on a fresh (stopped) session: two starts spawn exactly
once. -/
theorem spec_c6_witness :
    (start 1 (start 0
        (initServer (pys "booc") ArgsParam.noneArg none none 300))).spawnCount
      = (initServer (pys "booc") ArgsParam.noneArg none none 300).spawnCount
          + 1 := by
  exact (spec_c6 0 1
    (initServer (pys "booc") ArgsParam.noneArg none none 300) rfl).2.1 rfl

lemma rspExtraArgs_eq_amended (lines0 : List PyStr) :
    rspExtraArgs lines0 = rspExtraArgsAmended lines0 := by
  simp only [rspExtraArgs, rspExtraArgsAmended, map_filter_eq_filterMap]

/-- C7 counterexample: with a response file holding the single line
`-o:a-out.dll`, the spawned argument vector is `booc -r:a-rut.dll` —
`str.replace` also rewrote the `-o` inside `a-out` — and not the
`booc -r:a-out.dll` that translating only the output flag would produce. -/
theorem spec_c7_cex :
    ((start 0 (initServer (pys "booc") (ArgsParam.list [])
        (some { dir := pys "/proj", lines := [pys "-o:a-out.dll"] })
        none 300)).proc.map ProcInfo.args)
      = some [pys "booc", pys "-r:a-rut.dll"]
    ∧ ((start 0 (initServer (pys "booc") (ArgsParam.list [])
        (some { dir := pys "/proj", lines := [pys "-o:a-out.dll"] })
        none 300)).proc.map ProcInfo.args)
      ≠ some [pys "booc", pys "-r:a-out.dll"]
    ∧ rspExtraArgs [pys "-o:a-out.dll"] ≠ rspExtraArgsClaim [pys "-o:a-out.dll"] := by
  decide

/-- C7 (amended): when a response file is configured, the extra arguments
appended at spawn are exactly: the stripped file lines starting with `-r`,
then its lines starting with `-o` with every occurrence of `-o` in the line
replaced by `-r` (Python `str.replace`, not just the leading flag), then its
lines starting with `-ducky`; every other line is ignored, and the working
directory becomes the response file's directory. -/
theorem spec_c7 (bin : PyStr) (ap : ArgsParam) (dir : PyStr)
    (lines : List PyStr) (cwd0 : Option PyStr) (tmo now : Nat) :
    (start now (initServer bin ap (some { dir := dir, lines := lines })
        cwd0 tmo)).proc
      = some { running := true
               args := serverInitArgs bin ap ++ rspExtraArgsAmended lines
               cwd := some dir } := by
  unfold start
  rw [startBody_dead_eq (s := { initServer bin ap
      (some { dir := dir, lines := lines }) cwd0 tmo with lastUsage := now })
    rfl rfl]
  simp [spawn, resetQueues, initServer, rspExtraArgs_eq_amended]

/-- C8: two `get_server` calls with identical identity tuples return the
same Session (and the second call does not change the registry); identity
tuples differing in any component yield distinct Sessions. -/
theorem spec_c8 (k k' : SessionKey) (r : Registry) (hwf : RegistryWF r)
    (hne : k ≠ k') :
    ((get_server k (get_server k r).2).1 = (get_server k r).1
      ∧ (get_server k (get_server k r).2).2 = (get_server k r).2)
    ∧ (get_server k' (get_server k r).2).1 ≠ (get_server k r).1 := by
  obtain ⟨hbound, _hkeys, hids⟩ := hwf
  constructor
  · rcases hfk : findSession k r.sessions with _ | id
    · simp [get_server, hfk, findSession_append_self hfk]
    · simp [get_server, hfk]
  · rcases hfk : findSession k r.sessions with _ | id
    · simp only [get_server, hfk]
      rw [findSession_append_other hne]
      rcases hfk' : findSession k' r.sessions with _ | id'
      · simp
      · have hlt := hbound _ (findSession_mem hfk')
        simp only []
        omega
    · simp only [get_server, hfk]
      rcases hfk' : findSession k' r.sessions with _ | id'
      · have hlt := hbound _ (findSession_mem hfk)
        simp only [hfk']
        omega
      · simp only [hfk']
        intro hcontra
        have heq := List.inj_on_of_nodup_map hids
          (findSession_mem hfk') (findSession_mem hfk) hcontra
        exact hne (congrArg Prod.fst heq).symm

/-- Witness for C8: an empty registry, two keys differing only in working
directory. -/
theorem spec_c8_witness :
    (get_server ⟨pys "booc", [], some (pys "/a"), none⟩
        (get_server ⟨pys "booc", [], some (pys "/a"), none⟩ ⟨[], 0⟩).2).1
      = (get_server ⟨pys "booc", [], some (pys "/a"), none⟩ ⟨[], 0⟩).1
    ∧ (get_server ⟨pys "booc", [], some (pys "/b"), none⟩
        (get_server ⟨pys "booc", [], some (pys "/a"), none⟩ ⟨[], 0⟩).2).1
      ≠ (get_server ⟨pys "booc", [], some (pys "/a"), none⟩ ⟨[], 0⟩).1 := by
  have h := spec_c8 ⟨pys "booc", [], some (pys "/a"), none⟩
    ⟨pys "booc", [], some (pys "/b"), none⟩ ⟨[], 0⟩
    ⟨by simp, by simp, by simp⟩ (by decide)
  exact ⟨h.1.1, h.2⟩

/-- C9: `is_alive` is not side-effect free: whenever the process is not
alive it reports `false` and drains both the result queue and the whole
pending async-query queue — including a request enqueued while the process
was dead — and it genuinely mutates the state whenever that queue was
non-empty. -/
theorem spec_c9 (s : ServerState) (item : AsyncItem)
    (hdead : procAlive s = false) :
    (isAlive s).1 = false
    ∧ ((isAlive s).2).results = []
    ∧ ((isAlive s).2).asyncQueries = []
    ∧ ((isAlive (queryAsync item s)).2).asyncQueries = []
    ∧ (s.asyncQueries ≠ [] → (isAlive s).2 ≠ s) := by
  refine ⟨?_, ?_, ?_, ?_, ?_⟩
  · simp [isAlive, hdead]
  · simp [isAlive, hdead, resetQueues]
  · simp [isAlive, hdead, resetQueues]
  · cases hp : s.proc with
    | none => simp [isAlive, procAlive, queryAsync, hp, resetQueues]
    | some p =>
      have hrun : p.running = false := by simpa [procAlive, hp] using hdead
      simp [isAlive, procAlive, queryAsync, hp, hrun, resetQueues]
  · intro hne heq
    apply hne
    rw [isAlive, hdead] at heq
    have := congrArg ServerState.asyncQueries heq
    simpa [resetQueues] using this.symm

/-- Witness for C9: a dead session with one pending async request; the
liveness check discards it. -/
theorem spec_c9_witness :
    ((isAlive { initServer (pys "booc") ArgsParam.noneArg none none 300 with
        asyncQueries := [noopQuery] }).2).asyncQueries = [] := by
  exact (spec_c9 { initServer (pys "booc") ArgsParam.noneArg none none 300 with
    asyncQueries := [noopQuery] } noopQuery rfl).2.2.1

/-- C10: `Server.__init__` with a tuple or `None` for `args` swallows the
`AttributeError` from `insert` and collapses the argument vector to just the
executable, discarding every supplied argument; only a list yields the
executable followed by the given arguments. -/
theorem spec_c10 (bin : PyStr) (a : List PyStr) :
    serverInitArgs bin (ArgsParam.tuple a) = [bin]
    ∧ serverInitArgs bin ArgsParam.noneArg = [bin]
    ∧ serverInitArgs bin (ArgsParam.list a) = bin :: a
    ∧ (a ≠ [] →
        serverInitArgs bin (ArgsParam.tuple a)
          ≠ serverInitArgs bin (ArgsParam.list a)) := by
  refine ⟨rfl, rfl, rfl, ?_⟩
  intro hne hcontra
  apply hne
  simpa using (congrArg List.tail hcontra).symm

/-- Witness for C10: a tuple carrying one argument loses it. -/
theorem spec_c10_witness :
    serverInitArgs (pys "booc") (ArgsParam.tuple [pys "-v"])
      ≠ serverInitArgs (pys "booc") (ArgsParam.list [pys "-v"]) := by
  exact (spec_c10 (pys "booc") [pys "-v"]).2.2.2 (by decide)

end BooHints
